import Mathlib

/-!
Verification of the Turkish-Airlines six-continent flight-search repository.

The development shallowly embeds the Python sources:
  - `utils.py` (static reference data),
  - `route_planner.py` (route enumeration),
  - `comprehensive_flight_search.py` (flight validation, price parsing,
    per-route segment search with early termination, progress/result store,
    and the top-level resumable run).

Strings are Lean `String`s; Python substring tests, `lower`/`upper`/`strip`
and decimal parsing are modelled character-exactly on `List Char`.
Machine floats do not occur: Python prices are decimal strings and the
amounts involved are modelled exactly in `ℚ`.  The external scraper
(`google_flights.py`) is the Segment Query Client collaborator; a call to it
is modelled as an oracle value `SegResponse` (either an exception or a
category-name-to-offer-list mapping, exactly the shape `search` returns).
-/

namespace FlightSearch

/-- Python substring test `needle in hay` (contiguous substring). -/
def strContains (hay needle : String) : Bool :=
  decide (needle.toList <:+: hay.toList)

/-- Python `str.lower()` (ASCII case mapping suffices for the data involved). -/
def pyLower (s : String) : String :=
  String.mk (s.toList.map Char.toLower)

/-- Python `str.upper()` (ASCII case mapping suffices for the data involved). -/
def pyUpper (s : String) : String :=
  String.mk (s.toList.map Char.toUpper)

/-- Python `str.strip()`: drop leading and trailing whitespace. -/
def pyStrip (s : String) : String :=
  String.mk (((s.toList.dropWhile Char.isWhitespace).reverse.dropWhile
    Char.isWhitespace).reverse)

/-- Strict lexicographic comparison of strings by code point, as Python `<`. -/
def charListLt : List Char → List Char → Bool
  | [], [] => false
  | [], _ :: _ => true
  | _ :: _, [] => false
  | a :: as, b :: bs => a < b || (a = b && charListLt as bs)

/-- Python `<` on strings. -/
def strLt (a b : String) : Bool := charListLt a.toList b.toList

/-- Python `<` on 3-tuples of strings (lexicographic). -/
def tripleLt (a b : String × String × String) : Bool :=
  strLt a.1 b.1 ||
    (a.1 = b.1 && (strLt a.2.1 b.2.1 ||
      (a.2.1 = b.2.1 && strLt a.2.2 b.2.2)))

/-- Python `sorted` on a list of string 3-tuples (stable ascending sort). -/
def sortTriples (l : List (String × String × String)) :
    List (String × String × String) :=
  List.insertionSort (fun a b => tripleLt b a = false) l

/-! ## utils.py : static reference data -/

/-- The eligible-country table of `utils.get_eligible_country_list`,
    as an association list continent ↦ country codes (Python dict order). -/
def get_eligible_country_list : List (String × List String) :=
  [("Europe", ["DE", "AT", "AZ", "BE", "GB", "BA", "BG", "CZ", "DK", "EE",
      "FI", "FR", "GE", "HR", "NL", "IE", "ES", "SE", "CH", "IT", "ME", "XK",
      "LV", "LT", "LU", "HU", "MK", "MT", "MD", "NO", "PL", "PT", "RO", "RU",
      "RS", "SI", "GR"]),
   ("North America", ["US", "CA", "CU", "MX", "PA"]),
   ("South America", ["AR", "BR", "CO", "CL", "VE"]),
   ("Asia", ["AF", "BH", "BD", "AE", "CN", "ID", "PH", "KR", "IN", "IQ",
      "IR", "JP", "QA", "KZ", "KG", "KW", "LB", "MV", "MY", "MN", "NP", "UZ",
      "PK", "SG", "LK", "SY", "SA", "TH", "TM", "OM", "JO", "VN", "TR"]),
   ("Africa", ["AO", "BJ", "BF", "DZ", "DJ", "TD", "CD", "ER", "ET", "MA",
      "CI", "GA", "GM", "GH", "GN", "ZA", "SS", "CM", "KE", "CG", "LY", "MG",
      "ML", "MU", "EG", "MR", "MZ", "NE", "NG", "RW", "SN", "SL", "SO", "TZ",
      "TN", "UG", "ZM"]),
   ("Oceania", ["AU"])]

/-- `utils.REQUIRED_CONTINENTS`. -/
def REQUIRED_CONTINENTS : List String :=
  ["Asia", "Europe", "Africa", "North America", "South America", "Oceania"]

/-- `utils.COUNTRY_MAJOR_CITIES`, country code ↦ major cities. -/
def COUNTRY_MAJOR_CITIES : List (String × List String) :=
  [("IN", ["Delhi", "Mumbai"]),
   ("AE", ["Dubai", "Abu Dhabi"]),
   ("SG", ["Singapore"]),
   ("TH", ["Bangkok", "Phuket"]),
   ("TR", ["Istanbul"]),
   ("ID", ["Jakarta", "Bali"]),
   ("QA", ["Doha"]),
   ("MY", ["Kuala Lumpur"]),
   ("BD", ["Dhaka"]),
   ("LK", ["Colombo"]),
   ("MV", ["Male"]),
   ("CN", ["Beijing", "Shanghai"]),
   ("JP", ["Tokyo", "Osaka"]),
   ("KR", ["Seoul"]),
   ("PH", ["Manila"]),
   ("VN", ["Ho Chi Minh City", "Hanoi"]),
   ("SA", ["Riyadh", "Jeddah"]),
   ("KW", ["Kuwait City"]),
   ("BH", ["Manama"]),
   ("OM", ["Muscat"]),
   ("LB", ["Beirut"]),
   ("AF", ["Kabul"]),
   ("KZ", ["Almaty"]),
   ("UZ", ["Tashkent"]),
   ("KG", ["Bishkek"]),
   ("TM", ["Ashgabat"]),
   ("MN", ["Ulaanbaatar"]),
   ("DE", ["Frankfurt", "Munich", "Berlin"]),
   ("FR", ["Paris", "Lyon"]),
   ("NL", ["Amsterdam"]),
   ("IT", ["Rome", "Milan"]),
   ("ES", ["Madrid", "Barcelona"]),
   ("GB", ["London", "Manchester"]),
   ("RU", ["Moscow", "Saint Petersburg"]),
   ("AT", ["Vienna"]),
   ("BE", ["Brussels"]),
   ("CH", ["Zurich", "Geneva"]),
   ("SE", ["Stockholm"]),
   ("NO", ["Oslo"]),
   ("DK", ["Copenhagen"]),
   ("FI", ["Helsinki"]),
   ("PL", ["Warsaw", "Krakow"]),
   ("CZ", ["Prague"]),
   ("HU", ["Budapest"]),
   ("GR", ["Athens"]),
   ("PT", ["Lisbon"]),
   ("RO", ["Bucharest"]),
   ("BG", ["Sofia"]),
   ("HR", ["Zagreb"]),
   ("RS", ["Belgrade"]),
   ("BA", ["Sarajevo"]),
   ("ME", ["Podgorica"]),
   ("SI", ["Ljubljana"]),
   ("MK", ["Skopje"]),
   ("AZ", ["Baku"]),
   ("GE", ["Tbilisi"]),
   ("MD", ["Chisinau"]),
   ("EE", ["Tallinn"]),
   ("LV", ["Riga"]),
   ("LT", ["Vilnius"]),
   ("LU", ["Luxembourg"]),
   ("MT", ["Valletta"]),
   ("IE", ["Dublin"]),
   ("EG", ["Cairo", "Alexandria"]),
   ("KE", ["Nairobi"]),
   ("ZA", ["Johannesburg", "Cape Town"]),
   ("MA", ["Casablanca", "Marrakech"]),
   ("TN", ["Tunis"]),
   ("DZ", ["Algiers"]),
   ("LY", ["Tripoli"]),
   ("ET", ["Addis Ababa"]),
   ("GH", ["Accra"]),
   ("NG", ["Lagos", "Abuja"]),
   ("SN", ["Dakar"]),
   ("CI", ["Abidjan"]),
   ("CM", ["Douala"]),
   ("CD", ["Kinshasa"]),
   ("AO", ["Luanda"]),
   ("UG", ["Kampala"]),
   ("TZ", ["Dar es Salaam"]),
   ("RW", ["Kigali"]),
   ("MU", ["Port Louis"]),
   ("US", ["New York", "Los Angeles", "Chicago", "Miami", "San Francisco",
      "Washington DC", "Seattle", "Boston"]),
   ("CA", ["Toronto", "Montreal", "Vancouver"]),
   ("MX", ["Mexico City", "Cancun"]),
   ("PA", ["Panama City"]),
   ("BR", ["Sao Paulo", "Rio de Janeiro"]),
   ("AR", ["Buenos Aires"]),
   ("CO", ["Bogota", "Medellin"]),
   ("CL", ["Santiago"]),
   ("VE", ["Caracas"]),
   ("AU", ["Melbourne", "Sydney"])]

/-- `utils.EASY_VISA_COUNTRIES` (the `BD` entry is commented out in the source). -/
def EASY_VISA_COUNTRIES : List String :=
  ["IN", "AE", "QA", "ID", "TH", "MY", "SG", "LK", "MV", "TR", "GE", "KE",
   "EG", "MU", "BR", "AR", "CU", "CO", "BA", "RS", "ME", "MK", "MD", "AU",
   "UZ", "ZA", "MA", "AZ", "CA", "MX"]

/-! ## route_planner.py -/

def NUM_CONTINENTS : ℕ := 6
def MAX_ROUTES : ℕ := 4000
def EASY_VISA_WEIGHT : ℕ := 10

/-- A city entry of the continent→cities mapping
    (the dicts built in `get_continent_city_mapping`). -/
structure CityInfo where
  country_code : String
  city : String
  easy_visa : Bool
deriving DecidableEq, Repr

/-- A stop of a route (the dicts appended to `route` by the generators). -/
structure Stop where
  continent : String
  country_code : String
  city : String
  easy_visa : Bool
deriving DecidableEq, Repr

/-- The stop dict both generators append:
    `{"continent": ..., "country_code": ..., "city": ..., "easy_visa": ...}`. -/
def mkStop (continent : String) (ci : CityInfo) : Stop :=
  { continent := continent, country_code := ci.country_code,
    city := ci.city, easy_visa := ci.easy_visa }

/-- `route_planner.get_continent_city_mapping`, parameterised by the three
    reference-data tables it reads (module globals in the source). -/
def get_continent_city_mapping (eligible : List (String × List String))
    (easyVisa : List String) (cityMap : List (String × List String)) :
    List (String × List CityInfo) :=
  eligible.map fun p =>
    (p.1, p.2.flatMap fun country_code =>
      if easyVisa.contains country_code ∧ (cityMap.lookup country_code).isSome
      then ((cityMap.lookup country_code).getD []).map fun city =>
        { country_code := country_code, city := city, easy_visa := true }
      else [])

/-- `route_planner.calculate_route_score`. -/
def calculate_route_score (route : List Stop) : ℕ :=
  (route.countP (fun s => s.easy_visa)) * EASY_VISA_WEIGHT +
    (if ((route.map (fun s => s.country_code)).dedup).length < route.length
     then 5 else 0)

/-- Sort descending by score, Python `list.sort(key=calculate_route_score,
    reverse=True)`. -/
def sortByScore (routes : List (List Stop)) : List (List Stop) :=
  List.insertionSort
    (fun a b => calculate_route_score b ≤ calculate_route_score a) routes

/-- `itertools.product` over a list of lists (rightmost factor varies fastest). -/
def pyProduct : List (List α) → List (List α)
  | [] => [[]]
  | l :: ls => l.flatMap fun x => (pyProduct ls).map (fun c => x :: c)

/-- Out-of-range placeholder for modelled Python list indexing; every index
    used below is reduced modulo the (positive) length, so it is never hit. -/
def dummyCity : CityInfo := { country_code := "", city := "", easy_visa := true }

/-- Python `cities[n % len(cities)]`. -/
def cityIdx (cities : List CityInfo) (n : ℕ) : CityInfo :=
  cities.getD (n % cities.length) dummyCity

/-- Python `cities.sort(key=lambda x: x['city'])` (stable ascending). -/
def sortByCityName (cities : List CityInfo) : List CityInfo :=
  List.insertionSort (fun a b => strLt b.city a.city = false) cities

/-- Python `cities.sort(key=lambda x: x['country_code'])` (stable ascending). -/
def sortByCountryCode (cities : List CityInfo) : List CityInfo :=
  List.insertionSort
    (fun a b => strLt b.country_code a.country_code = false) cities

/-- The four-strategy city selection inside `generate_optimal_routes`
    (the branch on `selection_strategy = attempt % 4`). -/
def selectCity (attempt : ℕ) (cities : List CityInfo) : CityInfo :=
  match attempt % 4 with
  | 0 => cityIdx cities attempt
  | 1 => cityIdx (sortByCityName cities) attempt
  | 2 => cityIdx (sortByCountryCode cities) attempt
  | _ =>
    if 1 < cities.length then
      let half := cities.length / 2
      if attempt % 2 = 0 ∧ 0 < half then
        cities.getD ((attempt / 2) % half) dummyCity
      else
        let available_cities := if 0 < half then cities.drop half else cities
        available_cities.getD (attempt % available_cities.length) dummyCity
    else cities.getD 0 dummyCity

/-- The per-attempt route-building loop of `generate_optimal_routes`:
    walk the (shuffled) continent list, skip continents already used or with
    no cities, and append one selected city per continent.  Python's
    `continent_cities[continent]` indexing is modelled as lookup-with-default;
    under the invariants proved below the key is always present. -/
def buildRouteAux (cc : List (String × List CityInfo)) (attempt : ℕ) :
    List String → List String → List Stop
  | [], _ => []
  | cont :: rest, used =>
    if used.contains cont then buildRouteAux cc attempt rest used
    else
      let cities := (cc.lookup cont).getD []
      if cities.isEmpty then buildRouteAux cc attempt rest used
      else
        mkStop cont (selectCity attempt cities) ::
          buildRouteAux cc attempt rest (used ++ [cont])

/-- One attempt of `generate_optimal_routes`: the continents are the
    attempt-seeded shuffle of the available ones, truncated to
    `NUM_CONTINENTS`. -/
def buildRoute (cc : List (String × List CityInfo)) (attempt : ℕ)
    (conts : List String) : List Stop :=
  buildRouteAux cc attempt (conts.take NUM_CONTINENTS) []

/-- The signature used for dedup inside `generate_optimal_routes`:
    `tuple(sorted((continent, city, country_code) for stop in route))`. -/
def plannerSig (route : List Stop) : List (String × String × String) :=
  sortTriples (route.map fun s => (s.continent, s.city, s.country_code))

/-- The dedup loop of `generate_optimal_routes` (keep first occurrence of
    each signature). -/
def dedupBySig : List (List Stop) → List (List (String × String × String)) →
    List (List Stop)
  | [], _ => []
  | r :: rest, seen =>
    if seen.contains (plannerSig r) then dedupBySig rest seen
    else r :: dedupBySig rest (seen ++ [plannerSig r])

/-- `route_planner.generate_optimal_routes`.  `shuffle` is the
    attempt-seeded `random.seed(attempt); random.shuffle(...)` of the source:
    a deterministic permutation of its argument keyed by the attempt number.
    A `ValueError` is an `Except.error`. -/
def generate_optimal_routes (eligible : List (String × List String))
    (easyVisa : List String) (cityMap : List (String × List String))
    (shuffle : ℕ → List String → List String) :
    Except String (List (List Stop)) :=
  let continent_cities := get_continent_city_mapping eligible easyVisa cityMap
  let available_continents := continent_cities.map Prod.fst
  if available_continents.length < NUM_CONTINENTS then
    Except.error "Missing continents"
  else
    let all_routes := (List.range (MAX_ROUTES * 2)).flatMap fun attempt =>
      let route := buildRoute continent_cities attempt
        (shuffle attempt available_continents)
      if route.length = NUM_CONTINENTS then [route] else []
    let unique_routes := dedupBySig all_routes []
    Except.ok ((sortByScore unique_routes).take MAX_ROUTES)

/-- `route_planner.generate_all_possible_combinations`: full cross-product
    when at most 100000 combinations, otherwise the sampling fallback. -/
def generate_all_possible_combinations (eligible : List (String × List String))
    (easyVisa : List String) (cityMap : List (String × List String))
    (shuffle : ℕ → List String → List String) :
    Except String (List (List Stop)) :=
  let continent_cities := get_continent_city_mapping eligible easyVisa cityMap
  let available_continents := continent_cities.map Prod.fst
  if available_continents.length < NUM_CONTINENTS then
    Except.error "Missing continents"
  else
    let total_combinations : ℕ :=
      (continent_cities.map (fun p => p.2.length)).prod
    if 100000 < total_combinations then
      generate_optimal_routes eligible easyVisa cityMap shuffle
    else
      let continent_city_lists := continent_cities.map Prod.snd
      let all_routes := (pyProduct continent_city_lists).map fun combination =>
        List.zipWith mkStop available_continents combination
      Except.ok (sortByScore all_routes)

/-! ## comprehensive_flight_search.py : Flight Validator and price parsing -/

/-- One raw flight-offer record, with exactly the fields and the field order
    of the dicts built by `google_flights.GoogleFlights._process`
    (`departure_time`/`arrival_time` and the two price/emission extras may be
    `None`; `stops` is the stop-count descriptor string, e.g. "Nonstop";
    `route` is the list of routed airport codes). -/
structure Flight where
  departure_time : Option String
  arrival_time : Option String
  airline : String
  duration : String
  stops : String
  emissions : String
  emission_comparison : Option String
  price : String
  price_type : Option String
  route : List String
deriving DecidableEq, Repr

/-- Python `repr` of a string value (single-quoted; quote-escaping inside the
    value is not modelled — no airline/price datum contains a quote). -/
def pyReprStr (s : String) : String := "'" ++ s ++ "'"

/-- Python `repr` of an optional string value (`None` or quoted). -/
def pyReprOpt : Option String → String
  | none => "None"
  | some s => pyReprStr s

/-- Python `repr` of a list of strings. -/
def pyReprList (l : List String) : String :=
  "[" ++ String.intercalate ", " (l.map pyReprStr) ++ "]"

/-- Python `str(flight)` for a flight dict: the dict repr with the insertion
    order of `google_flights.GoogleFlights._process`. -/
def flightStr (f : Flight) : String :=
  "\x7b" ++ String.intercalate ", "
    ["'departure_time': " ++ pyReprOpt f.departure_time,
     "'arrival_time': " ++ pyReprOpt f.arrival_time,
     "'airline': " ++ pyReprStr f.airline,
     "'duration': " ++ pyReprStr f.duration,
     "'stops': " ++ pyReprStr f.stops,
     "'emissions': " ++ pyReprStr f.emissions,
     "'emission_comparison': " ++ pyReprOpt f.emission_comparison,
     "'price': " ++ pyReprStr f.price,
     "'price_type': " ++ pyReprOpt f.price_type,
     "'route': " ++ pyReprList f.route] ++ "\x7d"

/-- The codeshare test of `filter_turkish_airlines_flights`:
    `"," in airline or " + " in airline or "/" in airline`. -/
def is_codeshare (airline : String) : Bool :=
  strContains airline "," || strContains airline " + " || strContains airline "/"

/-- The accepted target-airline aliases (`turkish_airlines_names`). -/
def turkish_airlines_names : List String :=
  ["turkish airlines", "turkish", "thy", "tk"]

/-- The alias test: `any(name in airline_lower for name in ...)` with
    `airline_lower = airline.lower().strip()`. -/
def is_turkish (airline : String) : Bool :=
  turkish_airlines_names.any fun name =>
    strContains (pyStrip (pyLower airline)) name

/-- The combined routed-airport list: `route` plus `stops` when those fields
    are lists.  In scraper output `route` is always a list and `stops` is
    always a string descriptor, so only `route` contributes
    (the `isinstance(stops, list)` branch never fires). -/
def flightAllAirports (f : Flight) : List String := f.route

/-- The hub test of `filter_turkish_airlines_flights`: IST among the routed
    airports, or "IST"/"ISTANBUL" anywhere in `str(flight).upper()`. -/
def has_ist (f : Flight) : Bool :=
  (flightAllAirports f).contains "IST" ||
    strContains (pyUpper (flightStr f)) "IST" ||
    strContains (pyUpper (flightStr f)) "ISTANBUL"

/-- The per-offer predicate of `filter_turkish_airlines_flights`: the four
    `continue` guards in source order (non-empty airline, not codeshare,
    target-airline alias, via-IST). -/
def flightValid (f : Flight) : Bool :=
  decide (f.airline ≠ "") && !(is_codeshare f.airline) &&
    is_turkish f.airline && has_ist f

/-- `TurkishAirlinesOptimizer.filter_turkish_airlines_flights`. -/
def filter_turkish_airlines_flights (flights : List Flight) : List Flight :=
  flights.filter flightValid

/-- Value of an all-digit character list, most significant first. -/
def digitsVal (l : List Char) : ℕ :=
  l.foldl (fun a c => a * 10 + (c.toNat - 48)) 0

/-- Python `float()` on an unsigned decimal literal `digits[.digits]`
    (exactly modelled in `ℚ`; the decimal strings occurring as prices are
    float-representable and compared exactly). -/
def pyFloatUnsigned (l : List Char) : Option ℚ :=
  let intPart := l.takeWhile Char.isDigit
  let rest := l.dropWhile Char.isDigit
  match rest with
  | [] => if intPart.isEmpty then none else some (digitsVal intPart)
  | '.' :: frac =>
    if frac.all Char.isDigit && !(intPart.isEmpty && frac.isEmpty) then
      some ((digitsVal intPart : ℚ) + (digitsVal frac : ℚ) / (10 ^ frac.length))
    else none
  | _ => none

/-- Python `float()` on an optionally signed decimal literal.  Modelled from
    the source call `float(cleaned)` restricted to decimal literals (the
    exotic accepted forms — exponents, `inf`, `nan`, underscores — do not
    occur in price strings; anything else raises, i.e. `none`). -/
def pyFloat (s : String) : Option ℚ :=
  match s.toList with
  | '-' :: t => (pyFloatUnsigned t).map (fun v => -v)
  | '+' :: t => pyFloatUnsigned t
  | l => pyFloatUnsigned l

/-- `TurkishAirlinesOptimizer.parse_price`: strip the rupee sign and commas
    and parse; empty, "N/A" and unparseable strings map to the sentinel
    999999. -/
def parse_price (price_str : String) : ℚ :=
  if price_str = "" ∨ price_str = "N/A" then 999999
  else
    let cleaned :=
      pyStrip (String.mk (price_str.toList.filter fun c => c ≠ '₹' ∧ c ≠ ','))
    match pyFloat cleaned with
    | some v => v
    | none => 999999

/-- The key of the `min(valid_flights, key=...)` call:
    `parse_price(x.get("price", "₹999,999"))`; the `price` key is always
    present in scraper records, so the default never fires. -/
def pyMinKey (f : Flight) : ℚ := parse_price f.price

/-- Python `min` over the non-empty list `f :: fs` with key `pyMinKey`
    (returns the first element attaining the minimal key). -/
def min1 (f : Flight) (fs : List Flight) : Flight :=
  fs.foldl (fun best x => if pyMinKey x < pyMinKey best then x else best) f

/-! ## comprehensive_flight_search.py : search orchestration -/

/-- The `airport_mapping` table of
    `TurkishAirlinesOptimizer.city_to_airport_code`. -/
def airport_mapping : List (String × String) :=
  [("Delhi", "DEL"), ("Mumbai", "BOM"), ("Hyderabad", "HYD"),
   ("Bangalore", "BLR"), ("Dubai", "DXB"), ("Abu Dhabi", "AUH"),
   ("Singapore", "SIN"), ("Bangkok", "BKK"), ("Phuket", "HKT"),
   ("Istanbul", "IST"), ("Ankara", "ESB"), ("Jakarta", "CGK"),
   ("Bali", "DPS"), ("Doha", "DOH"), ("Kuala Lumpur", "KUL"),
   ("Dhaka", "DAC"), ("Colombo", "CMB"), ("Male", "MLE"),
   ("Beijing", "PEK"), ("Shanghai", "PVG"), ("Tokyo", "NRT"),
   ("Osaka", "KIX"), ("Seoul", "ICN"), ("Manila", "MNL"),
   ("Ho Chi Minh City", "SGN"), ("Hanoi", "HAN"), ("Riyadh", "RUH"),
   ("Jeddah", "JED"), ("Kuwait City", "KWI"), ("Manama", "BAH"),
   ("Muscat", "MCT"), ("Beirut", "BEY"), ("Kabul", "KBL"),
   ("Almaty", "ALA"), ("Tashkent", "TAS"), ("Bishkek", "FRU"),
   ("Ashgabat", "ASB"), ("Ulaanbaatar", "ULN"), ("Kathmandu", "KTM"),
   ("Frankfurt", "FRA"), ("Munich", "MUC"), ("Berlin", "BER"),
   ("Paris", "CDG"), ("Lyon", "LYS"), ("Amsterdam", "AMS"),
   ("Rome", "FCO"), ("Milan", "MXP"), ("Madrid", "MAD"),
   ("Barcelona", "BCN"), ("London", "LHR"), ("Manchester", "MAN"),
   ("Moscow", "SVO"), ("Saint Petersburg", "LED"), ("Vienna", "VIE"),
   ("Brussels", "BRU"), ("Zurich", "ZUR"), ("Geneva", "GVA"),
   ("Stockholm", "ARN"), ("Oslo", "OSL"), ("Copenhagen", "CPH"),
   ("Helsinki", "HEL"), ("Warsaw", "WAW"), ("Krakow", "KRK"),
   ("Prague", "PRG"), ("Budapest", "BUD"), ("Athens", "ATH"),
   ("Lisbon", "LIS"), ("Bucharest", "OTP"), ("Sofia", "SOF"),
   ("Zagreb", "ZAG"), ("Belgrade", "BEG"), ("Sarajevo", "SJJ"),
   ("Podgorica", "TGD"), ("Ljubljana", "LJU"), ("Skopje", "SKP"),
   ("Baku", "GYD"), ("Tbilisi", "TBS"), ("Chisinau", "KIV"),
   ("Tallinn", "TLL"), ("Riga", "RIX"), ("Vilnius", "VNO"),
   ("Luxembourg", "LUX"), ("Valletta", "MLA"), ("Dublin", "DUB"),
   ("Cairo", "CAI"), ("Alexandria", "HBE"), ("Nairobi", "NBO"),
   ("Johannesburg", "JNB"), ("Cape Town", "CPT"), ("Casablanca", "CMN"),
   ("Marrakech", "RAK"), ("Tunis", "TUN"), ("Algiers", "ALG"),
   ("Tripoli", "TIP"), ("Addis Ababa", "ADD"), ("Accra", "ACC"),
   ("Lagos", "LOS"), ("Abuja", "ABV"), ("Dakar", "DKR"),
   ("Abidjan", "ABJ"), ("Douala", "DLA"), ("Kinshasa", "FIH"),
   ("Luanda", "LAD"), ("Kampala", "EBB"), ("Dar es Salaam", "DAR"),
   ("Kigali", "KGL"), ("Port Louis", "MRU"), ("Antananarivo", "TNR"),
   ("New York", "JFK"), ("Los Angeles", "LAX"), ("Chicago", "ORD"),
   ("Miami", "MIA"), ("San Francisco", "SFO"), ("Washington DC", "DCA"),
   ("Seattle", "SEA"), ("Boston", "BOS"), ("Toronto", "YYZ"),
   ("Montreal", "YUL"), ("Vancouver", "YVR"), ("Mexico City", "MEX"),
   ("Cancun", "CUN"), ("Havana", "HAV"), ("Panama City", "PTY"),
   ("Sao Paulo", "GRU"), ("Rio de Janeiro", "GIG"),
   ("Buenos Aires", "EZE"), ("Bogota", "BOG"), ("Medellin", "MDE"),
   ("Santiago", "SCL"), ("Caracas", "CCS"), ("Melbourne", "MEL"),
   ("Sydney", "SYD"), ("Perth", "PER")]

/-- `TurkishAirlinesOptimizer.city_to_airport_code`
    (fallback: uppercased first three letters of the city). -/
def city_to_airport_code (city : String) (_country_code : String) : String :=
  (airport_mapping.lookup city).getD (pyUpper (String.mk (city.toList.take 3)))

/-- `TurkishAirlinesOptimizer.route_to_signature`:
    `tuple(sorted((city, country_code, continent) for stop in route))`. -/
def route_to_signature (route : List Stop) : List (String × String × String) :=
  sortTriples (route.map fun s => (s.city, s.country_code, s.continent))

/-- One Segment Query Client call outcome: either the scraper raised, or it
    returned its category-name → offer-list mapping (the dict returned by
    `GoogleFlights.search`; `return {}` on missing page is the empty list). -/
inductive SegResponse where
  | error : SegResponse
  | ok : List (String × List Flight) → SegResponse
deriving DecidableEq

/-- The offer-collection logic of `search_route_flights`: concatenate the
    `top_flights` and `all_flights` entries, and if that is empty fall back
    to concatenating every (list-valued) entry of the response. -/
def collect_all_flights (resp : List (String × List Flight)) : List Flight :=
  let all_flights := ((resp.lookup "top_flights").getD []) ++
    ((resp.lookup "all_flights").getD [])
  if all_flights.isEmpty then resp.flatMap Prod.snd else all_flights

/-- One winning segment record appended to `route_flights`. -/
structure SegmentRecord where
  segment : String
  origin : String
  destination : String
  flight : Flight
deriving DecidableEq, Repr

/-- The Itinerary Result dict built on the complete path of
    `search_route_flights` (the wall-clock `completed_at` timestamp, the
    `thread_id` and the display string `total_cost_formatted` are not
    modelled; no claim depends on them). -/
structure ItinResult where
  route_index : ℕ
  route : List Stop
  flights : List SegmentRecord
  total_cost_inr : ℚ
  status : String
deriving DecidableEq, Repr

/-- The observable effects of one `search_route_flights` call: number of
    Segment Query Client calls, the returned value, whether `save_progress`
    recorded the route signature, the result (if any) handed to
    `save_result_to_file`, and the number of `update_progress(success=True)`
    calls made inside. -/
structure SearchEffects where
  calls : ℕ
  result : Option ItinResult
  sigSaved : Bool
  savedResult : Option ItinResult
  completedInc : ℕ
deriving DecidableEq, Repr

/-- The segment loop of `search_route_flights` over the consecutive-city
    pairs, returning the number of scraper calls made and, when every
    segment produced a surviving offer, the accumulated segment records and
    total cost.  `none` is the early-terminated `return None` (scraper
    exception, no offers, or no valid offers). -/
def searchLoop (oracle : ℕ → SegResponse) :
    List (Stop × Stop) → ℕ → List SegmentRecord → ℚ →
    ℕ × Option (List SegmentRecord × ℚ)
  | [], _, acc, cost => (0, some (acc, cost))
  | (o, d) :: rest, i, acc, cost =>
    match oracle i with
    | SegResponse.error => (1, none)
    | SegResponse.ok resp =>
      let all_flights := collect_all_flights resp
      if all_flights.isEmpty then (1, none)
      else
        match filter_turkish_airlines_flights all_flights with
        | [] => (1, none)
        | v :: vs =>
          let cheapest := min1 v vs
          let price := parse_price cheapest.price
          let record : SegmentRecord :=
            { segment := o.city ++ " → " ++ d.city,
              origin := city_to_airport_code o.city o.country_code,
              destination := city_to_airport_code d.city d.country_code,
              flight := cheapest }
          let r := searchLoop oracle rest (i + 1) (acc ++ [record])
            (cost + price)
          (r.1 + 1, r.2)

/-- `TurkishAirlinesOptimizer.search_route_flights` for one route, driven by
    the segment oracle.  Every terminal path of the source calls
    `save_progress(route_signature)`, so `sigSaved` is set on both arms;
    only the complete path saves a result and counts a completion. -/
def search_route_flights (oracle : ℕ → SegResponse) (route : List Stop)
    (route_index : ℕ) : SearchEffects :=
  let p := searchLoop oracle (route.zip route.tail) 0 [] 0
  match p.2 with
  | none =>
    { calls := p.1, result := none, sigSaved := true, savedResult := none,
      completedInc := 0 }
  | some fc =>
    let result : ItinResult :=
      { route_index := route_index, route := route, flights := fc.1,
        total_cost_inr := fc.2, status := "complete_with_all_turkish_flights" }
    { calls := p.1, result := some result, sigSaved := true,
      savedResult := some result, completedInc := 1 }

/-- The counter increments observed after one
    `TurkishAirlinesOptimizer.worker_search_route` call: the worker adds a
    discarded increment whenever `search_route_flights` returned `None`.
    The failed counter is only incremented by exception paths outside the
    per-segment query (the outer `except` and the `future.result()` handler),
    which have no exception source in this embedding. -/
structure WorkerOutcome where
  effects : SearchEffects
  completedInc : ℕ
  discardedInc : ℕ
  failedInc : ℕ
deriving DecidableEq, Repr

/-- `TurkishAirlinesOptimizer.worker_search_route` for one route. -/
def worker_search_route (oracle : ℕ → SegResponse) (route : List Stop)
    (route_index : ℕ) : WorkerOutcome :=
  let e := search_route_flights oracle route route_index
  { effects := e,
    completedInc := e.completedInc,
    discardedInc := if e.result.isSome then 0 else 1,
    failedInc := 0 }

/-- The sort key of `save_result_to_file`:
    `x.get("total_cost_inr", 999999)`; the field is always present in
    records built by `search_route_flights`. -/
def resultKey (r : ItinResult) : ℚ := r.total_cost_inr

/-- `TurkishAirlinesOptimizer.save_result_to_file`: append the new record to
    the persisted collection and rewrite it sorted ascending by total cost
    (Python's stable `list.sort`). -/
def save_result_to_file (existing_results : List ItinResult)
    (result : ItinResult) : List ItinResult :=
  List.insertionSort (fun a b => resultKey a ≤ resultKey b)
    (existing_results ++ [result])

/-- The `completed_routes` set update of `save_progress` (a Python `set`,
    modelled as a duplicate-free insertion list). -/
def addSig (sigs : List (List (String × String × String)))
    (sig : List (String × String × String)) :
    List (List (String × String × String)) :=
  if sigs.contains sig then sigs else sigs ++ [sig]

/-- The shared Progress/Result Store plus run counters: resolved signatures
    (the progress file / `completed_routes`), the persisted results file,
    and the aggregate counters, together with the total number of Segment
    Query Client calls made. -/
structure RunState where
  completed_routes : List (List (String × String × String))
  results_file : List ItinResult
  calls : ℕ
  completed_count : ℕ
  discarded_count : ℕ
  failed_count : ℕ
deriving Repr

/-- `TurkishAirlinesOptimizer.is_route_completed`. -/
def is_route_completed (st : RunState) (route : List Stop) : Bool :=
  st.completed_routes.contains (route_to_signature route)

/-- Process one pending route: run the worker and commit its effects to the
    store and counters (each store mutation is lock-protected and atomic in
    the source; one route's effects never interleave with another's, so the
    per-route commit is modelled as a single state update). -/
def processRoute (oracle : List Stop → ℕ → SegResponse) (st : RunState)
    (p : List Stop × ℕ) : RunState :=
  let w := worker_search_route (oracle p.1) p.1 p.2
  { completed_routes :=
      if w.effects.sigSaved then
        addSig st.completed_routes (route_to_signature p.1)
      else st.completed_routes,
    results_file :=
      match w.effects.savedResult with
      | some r => save_result_to_file st.results_file r
      | none => st.results_file,
    calls := st.calls + w.effects.calls,
    completed_count := st.completed_count + w.completedInc,
    discarded_count := st.discarded_count + w.discardedInc,
    failed_count := st.failed_count + w.failedInc }

/-- The pending-route filter of `search_all_routes_parallel`: enumerate the
    truncated route list and keep the not-yet-resolved ones, paired with
    their 1-based index. -/
def pendingOf (st : RunState) : List (List Stop) → ℕ → List (List Stop × ℕ)
  | [], _ => []
  | r :: rest, i =>
    if is_route_completed st r then pendingOf st rest (i + 1)
    else (r, i + 1) :: pendingOf st rest (i + 1)

/-- Dispatch the pending routes (dispatch order; completion order only
    affects console output, not the store). -/
def runPending (oracle : List Stop → ℕ → SegResponse) :
    RunState → List (List Stop × ℕ) → RunState
  | st, [] => st
  | st, p :: rest => runPending oracle (processRoute oracle st p) rest

/-- `TurkishAirlinesOptimizer.search_all_routes_parallel`: truncate to
    `max_routes_to_search`, skip already-resolved routes, process the rest,
    and leave the store's results file as the returned collection (both the
    empty-pending early return and the final re-read return exactly
    `results_file`). -/
def search_all_routes_parallel (oracle : List Stop → ℕ → SegResponse)
    (st : RunState) (routes : List (List Stop)) (max_routes_to_search : ℕ) :
    RunState :=
  runPending oracle st (pendingOf st (routes.take max_routes_to_search) 0)

/-- Whether a Segment Query Client outcome yields at least one surviving
    offer (no exception, and the validator keeps something). -/
def respValid : SegResponse → Bool
  | SegResponse.error => false
  | SegResponse.ok resp =>
    !(filter_turkish_airlines_flights (collect_all_flights resp)).isEmpty

/-- Whether a Segment Query Client outcome is a non-exceptional response
    with zero offers or none surviving the validator. -/
def respEmptyOk : SegResponse → Bool
  | SegResponse.error => false
  | SegResponse.ok resp =>
    (filter_turkish_airlines_flights (collect_all_flights resp)).isEmpty

/-! ## Concrete fixtures used by witnesses and counterexamples -/

/-- A valid Turkish Airlines offer via IST. -/
def flightTurkish : Flight :=
  { departure_time := some "10:00 AM", arrival_time := some "6:00 PM",
    airline := "Turkish Airlines", duration := "8 hr", stops := "1 stop",
    emissions := "500 kg CO2e", emission_comparison := none,
    price := "₹45,230", price_type := some "round trip",
    route := ["DEL", "IST", "JFK"] }

/-- An offer whose airline contains a bare plus sign (no spaces). -/
def flightPlus : Flight := { flightTurkish with airline := "TK+X" }

/-- A codeshare offer (comma-joined airlines). -/
def flightComma : Flight :=
  { flightTurkish with airline := "Turkish Airlines, Emirates" }

/-- An unrelated carrier whose lowercased name embeds "tk". -/
def flightSmart : Flight := { flightTurkish with airline := "SmartKargo" }

/-- A surviving offer with an unparseable price. -/
def flightSentinel : Flight := { flightTurkish with price := "N/A" }

/-- A surviving offer with a parseable price above the sentinel. -/
def flightMillion : Flight := { flightTurkish with price := "₹1,000,000" }

/-- A six-stop route over the six continents. -/
def route6 : List Stop :=
  [{ continent := "Asia", country_code := "IN", city := "Delhi",
     easy_visa := true },
   { continent := "Africa", country_code := "EG", city := "Cairo",
     easy_visa := true },
   { continent := "Europe", country_code := "GE", city := "Tbilisi",
     easy_visa := true },
   { continent := "North America", country_code := "CU", city := "Havana",
     easy_visa := true },
   { continent := "South America", country_code := "AR",
     city := "Buenos Aires", easy_visa := true },
   { continent := "Oceania", country_code := "AU", city := "Sydney",
     easy_visa := true }]

/-- Oracle: segment 0 has one valid offer, every later segment returns an
    empty response. -/
def oracleOneThenEmpty : ℕ → SegResponse := fun n =>
  if n = 0 then SegResponse.ok [("top_flights", [flightTurkish])]
  else SegResponse.ok []

/-- Oracle: the client raises on every segment. -/
def oracleErr : ℕ → SegResponse := fun _ => SegResponse.error

/-- Oracle: the client returns an empty mapping on every segment. -/
def oracleEmpty : ℕ → SegResponse := fun _ => SegResponse.ok []

/-- Identity shuffle (a permutation, as `random.shuffle` always is). -/
def idShuffle : ℕ → List String → List String := fun _ l => l

/-- Tiny reference data: one visa-easy country with one city per continent. -/
def tinyEligible : List (String × List String) :=
  [("Asia", ["SG"]), ("Europe", ["GE"]), ("Africa", ["KE"]),
   ("North America", ["MX"]), ("South America", ["AR"]), ("Oceania", ["AU"])]

/-- Tiny city table matching `tinyEligible`. -/
def tinyCityMap : List (String × List String) :=
  [("SG", ["Singapore"]), ("GE", ["Tbilisi"]), ("KE", ["Nairobi"]),
   ("MX", ["Mexico City"]), ("AR", ["Buenos Aires"]), ("AU", ["Sydney"])]

/-- The single route the tiny reference data generates. -/
def tinyRoute : List Stop :=
  [{ continent := "Asia", country_code := "SG", city := "Singapore",
     easy_visa := true },
   { continent := "Europe", country_code := "GE", city := "Tbilisi",
     easy_visa := true },
   { continent := "Africa", country_code := "KE", city := "Nairobi",
     easy_visa := true },
   { continent := "North America", country_code := "MX",
     city := "Mexico City", easy_visa := true },
   { continent := "South America", country_code := "AR",
     city := "Buenos Aires", easy_visa := true },
   { continent := "Oceania", country_code := "AU", city := "Sydney",
     easy_visa := true }]

/-- Reference data whose Oceania country is neither visa-easy nor in the
    city table, so the Oceania continent ends up with zero eligible cities. -/
def badEligible : List (String × List String) :=
  [("Asia", ["IN"]), ("Europe", ["GE"]), ("Africa", ["EG"]),
   ("North America", ["MX"]), ("South America", ["AR"]), ("Oceania", ["NZ"])]

/-! ## Helper lemmas -/

lemma strContains_iff (hay needle : String) :
    strContains hay needle = true ↔ needle.toList <:+: hay.toList := by
  simp [strContains]

lemma infix_dropWhile_of_not (p : Char → Bool) (n : List Char)
    (hne : n ≠ []) (hw : ∀ c ∈ n, p c = false) :
    ∀ s : List Char, n <:+: s → n <:+: s.dropWhile p := by
  intro s
  induction s with
  | nil => intro h; exact absurd (List.sublist_nil.mp h.sublist) hne
  | cons c t ih =>
    intro h
    by_cases pc : p c = true
    · rw [List.dropWhile_cons, if_pos pc]
      rcases List.infix_cons_iff.mp h with hp | hi
      · obtain ⟨a, n', rfl⟩ : ∃ a n', n = a :: n' := by
          cases n with
          | nil => exact absurd rfl hne
          | cons a n' => exact ⟨a, n', rfl⟩
        have hac : a = c := (List.cons_prefix_cons.mp hp).1
        have hfa := hw a (List.mem_cons_self a n')
        rw [hac, pc] at hfa
        exact absurd hfa (by simp)
      · exact ih hi
    · rw [List.dropWhile_cons, if_neg pc]
      exact h

lemma infix_pyStrip (n : List Char) (s : String)
    (hne : n ≠ []) (hw : ∀ c ∈ n, c.isWhitespace = false)
    (h : n <:+: s.toList) : n <:+: (pyStrip s).toList := by
  have h1 : n <:+: s.toList.dropWhile Char.isWhitespace :=
    infix_dropWhile_of_not _ n hne hw _ h
  have h2 : n.reverse <:+: (s.toList.dropWhile Char.isWhitespace).reverse :=
    List.reverse_infix.mpr h1
  have h3 : n.reverse <:+:
      (s.toList.dropWhile Char.isWhitespace).reverse.dropWhile
        Char.isWhitespace :=
    infix_dropWhile_of_not _ n.reverse (by simpa using hne)
      (fun c hc => hw c (List.mem_reverse.mp hc)) _ h2
  have h4 := List.reverse_infix.mpr h3
  rw [List.reverse_reverse] at h4
  exact h4

lemma is_turkish_of_contains (airline : String)
    (h : strContains (pyLower airline) "tk" = true ∨
         strContains (pyLower airline) "thy" = true ∨
         strContains (pyLower airline) "turkish" = true) :
    is_turkish airline = true := by
  have key : ∀ name : String, name.toList ≠ [] →
      (∀ c ∈ name.toList, c.isWhitespace = false) →
      name ∈ turkish_airlines_names →
      strContains (pyLower airline) name = true →
      is_turkish airline = true := by
    intro name hne hw hmem hc
    have hinf := (strContains_iff _ _).mp hc
    have hstrip := infix_pyStrip name.toList (pyLower airline) hne hw hinf
    unfold is_turkish
    rw [List.any_eq_true]
    exact ⟨name, hmem, (strContains_iff _ _).mpr hstrip⟩
  rcases h with h | h | h
  · exact key "tk" (by decide) (by decide) (by decide) h
  · exact key "thy" (by decide) (by decide) (by decide) h
  · exact key "turkish" (by decide) (by decide) (by decide) h

lemma min1_key_le : ∀ (fs : List Flight) (f x : Flight), x ∈ f :: fs →
    pyMinKey (min1 f fs) ≤ pyMinKey x := by
  intro fs
  induction fs with
  | nil =>
    intro f x hx
    rcases List.mem_singleton.mp hx with rfl
    simp [min1]
  | cons a as ih =>
    intro f x hx
    have step : min1 f (a :: as) =
        min1 (if pyMinKey a < pyMinKey f then a else f) as := rfl
    have hgf : pyMinKey (if pyMinKey a < pyMinKey f then a else f) ≤
        pyMinKey f := by
      split
      · exact le_of_lt (by assumption)
      · exact le_refl _
    have hga : pyMinKey (if pyMinKey a < pyMinKey f then a else f) ≤
        pyMinKey a := by
      split
      · exact le_refl _
      · exact le_of_not_lt (by assumption)
    have hmin := ih (if pyMinKey a < pyMinKey f then a else f)
    rw [step]
    rcases List.mem_cons.mp hx with rfl | hx2
    · exact le_trans (hmin _ (List.mem_cons_self _ _)) hgf
    · rcases List.mem_cons.mp hx2 with rfl | hx3
      · exact le_trans (hmin _ (List.mem_cons_self _ _)) hga
      · exact hmin x (List.mem_cons_of_mem _ hx3)

/-! ## Claims -/

/-- C3 counterexample: an offer whose airline contains a bare "+" (without
    surrounding spaces) is NOT rejected — it survives the validator — so the
    claim that any "+" in the airline forces rejection is false. -/
theorem plus_airline_accepted :
    strContains flightPlus.airline "+" = true ∧
    filter_turkish_airlines_flights [flightPlus] = [flightPlus] := by decide

/-- C3 (amended): the validator rejects any offer whose airline field
    contains "," or "/" anywhere, or the three-character marker " + " (a
    plus sign surrounded by spaces), regardless of all other fields; e.g.
    airline "Turkish Airlines, Emirates" is always rejected.  A bare "+"
    without surrounding spaces is not a rejection marker. -/
theorem validator_rejects_markers (flights : List Flight) (f : Flight)
    (h : strContains f.airline "," = true ∨
         strContains f.airline " + " = true ∨
         strContains f.airline "/" = true) :
    f ∉ filter_turkish_airlines_flights flights := by
  intro hmem
  have hv : flightValid f = true :=
    (List.mem_filter.mp hmem).2
  have hcode : is_codeshare f.airline = true := by
    unfold is_codeshare
    rcases h with h | h | h <;> simp [h]
  unfold flightValid at hv
  rw [hcode] at hv
  simp at hv

/-- Witness for C3 (amended): the comma-joined codeshare offer is rejected. -/
theorem validator_rejects_markers_witness :
    flightComma ∉ filter_turkish_airlines_flights [flightComma] :=
  validator_rejects_markers [flightComma] flightComma (Or.inl (by decide))

/-- C4 counterexample: among two surviving offers, one with unparseable
    price "N/A" (sentinel 999999) and one with parseable price "₹1,000,000"
    (parses to 1000000 > sentinel), the minimum selection picks the
    malformed-price offer — so "a malformed-price offer never wins when a
    parseable one is present" is false. -/
theorem sentinel_offer_wins_min :
    filter_turkish_airlines_flights [flightSentinel, flightMillion] =
      [flightSentinel, flightMillion] ∧
    min1 flightSentinel [flightMillion] = flightSentinel ∧
    flightSentinel.price = "N/A" ∧
    pyFloat (pyStrip (String.mk (flightMillion.price.toList.filter
      fun c => c ≠ '₹' ∧ c ≠ ','))) = some 1000000 := by decide

/-- C4 (amended): price parsing maps "₹45,230" to 45230, and "N/A", empty
    or unparseable strings to the sentinel 999999; and minimum-price
    selection never lets a sentinel-valued offer win whenever some offer's
    parsed price is strictly below the sentinel (an offer parsing at or
    above 999999 can still lose to the sentinel). -/
theorem price_parsing_and_min_selection :
    parse_price "₹45,230" = (45230 : ℚ) ∧
    parse_price "N/A" = 999999 ∧
    parse_price "" = 999999 ∧
    parse_price "notaprice" = 999999 ∧
    ∀ (f : Flight) (fs : List Flight),
      (∃ g ∈ f :: fs, pyMinKey g < 999999) →
      pyMinKey (min1 f fs) < 999999 := by
  refine ⟨by decide, by decide, by decide, by decide, ?_⟩
  rintro f fs ⟨g, hg, hglt⟩
  exact lt_of_le_of_lt (min1_key_le fs f g hg) hglt

/-- Witness for C4: with a real-priced offer (₹45,230) alongside the
    sentinel-priced one, the selected offer's key is below the sentinel. -/
theorem price_parsing_and_min_selection_witness :
    pyMinKey (min1 flightTurkish [flightSentinel]) < 999999 :=
  price_parsing_and_min_selection.2.2.2.2 flightTurkish [flightSentinel]
    ⟨flightTurkish, List.mem_cons_self _ _, by decide⟩

/-- C10: the target-airline predicate matches by substring on the lowercased
    airline name, so any offer with a non-empty, marker-free airline whose
    lowercased name contains "tk", "thy" or "turkish" anywhere passes the
    airline check — its validity reduces to the hub check alone. -/
theorem substring_airline_match (f : Flight)
    (hne : f.airline ≠ "")
    (hc : strContains f.airline "," = false)
    (hp : strContains f.airline "+" = false)
    (hs : strContains f.airline "/" = false)
    (hname : strContains (pyLower f.airline) "tk" = true ∨
             strContains (pyLower f.airline) "thy" = true ∨
             strContains (pyLower f.airline) "turkish" = true) :
    flightValid f = has_ist f := by
  have hplus : strContains f.airline " + " = false := by
    cases h2 : strContains f.airline " + " with
    | false => rfl
    | true =>
      have hinf := (strContains_iff _ _).mp h2
      have hsub : ("+" : String).toList <:+: f.airline.toList :=
        List.IsInfix.trans (by decide) hinf
      have := (strContains_iff f.airline "+").mpr hsub
      rw [hp] at this
      exact Bool.noConfusion this
  have hcode : is_codeshare f.airline = false := by
    simp [is_codeshare, hc, hplus, hs]
  have hturk := is_turkish_of_contains f.airline hname
  simp [flightValid, hne, hcode, hturk]

/-- Witness for C10: "SmartKargo" (which embeds "tk" when lowercased) passes
    the airline check and, routing via IST, survives the whole validator. -/
theorem substring_airline_match_witness :
    flightValid flightSmart = has_ist flightSmart ∧
    flightSmart ∈ filter_turkish_airlines_flights [flightSmart] :=
  ⟨substring_airline_match flightSmart (by decide) (by decide) (by decide)
    (by decide) (Or.inl (by decide)), by decide⟩

lemma respEmptyOk_not_valid (r : SegResponse) (h : respEmptyOk r = true) :
    respValid r = false := by
  cases r with
  | error => rfl
  | ok resp =>
    simp only [respEmptyOk] at h
    simp only [respValid]
    rw [h]
    rfl

lemma searchLoop_fail (oracle : ℕ → SegResponse) :
    ∀ (k : ℕ) (pairs : List (Stop × Stop)) (i : ℕ)
      (acc : List SegmentRecord) (cost : ℚ),
      k < pairs.length →
      (∀ j, j < k → respValid (oracle (i + j)) = true) →
      respValid (oracle (i + k)) = false →
      searchLoop oracle pairs i acc cost = (k + 1, none) := by
  intro k
  induction k with
  | zero =>
    intro pairs i acc cost hlt _ hfail
    match pairs with
    | [] => simp at hlt
    | (o, d) :: rest =>
      rw [Nat.add_zero] at hfail
      cases ho : oracle i with
      | error => simp [searchLoop, ho]
      | ok resp =>
        rw [ho] at hfail
        simp only [respValid] at hfail
        have hfail2 :
            (filter_turkish_airlines_flights (collect_all_flights resp)).isEmpty
              = true := by
          cases hx : (filter_turkish_airlines_flights
              (collect_all_flights resp)).isEmpty with
          | true => rfl
          | false => rw [hx] at hfail; exact Bool.noConfusion hfail
        have hfil :
            filter_turkish_airlines_flights (collect_all_flights resp) = [] := by
          cases hx : filter_turkish_airlines_flights
              (collect_all_flights resp) with
          | nil => rfl
          | cons v vs => rw [hx] at hfail2; exact Bool.noConfusion hfail2
        by_cases hall : (collect_all_flights resp).isEmpty = true
        · simp [searchLoop, ho, hall]
        · simp [searchLoop, ho, hall, hfil]
  | succ k ih =>
    intro pairs i acc cost hlt hok hfail
    match pairs with
    | [] => simp at hlt
    | (o, d) :: rest =>
      have hv0 : respValid (oracle i) = true := by
        have := hok 0 (Nat.succ_pos k)
        rwa [Nat.add_zero] at this
      cases ho : oracle i with
      | error => rw [ho] at hv0; exact Bool.noConfusion hv0
      | ok resp =>
        rw [ho] at hv0
        simp only [respValid] at hv0
        obtain ⟨v, vs, hfil⟩ : ∃ v vs,
            filter_turkish_airlines_flights (collect_all_flights resp) =
              v :: vs := by
          cases hx : filter_turkish_airlines_flights
              (collect_all_flights resp) with
          | nil => rw [hx] at hv0; exact Bool.noConfusion hv0
          | cons v vs => exact ⟨v, vs, rfl⟩
        have hall : (collect_all_flights resp).isEmpty = false := by
          cases hy : collect_all_flights resp with
          | nil =>
            rw [hy] at hfil
            exact absurd hfil (by simp [filter_turkish_airlines_flights])
          | cons a b => rfl
        have hok2 : ∀ j, j < k → respValid (oracle (i + 1 + j)) = true := by
          intro j hj
          have := hok (j + 1) (Nat.succ_lt_succ hj)
          rwa [show i + 1 + j = i + (j + 1) by omega]
        have hfail2 : respValid (oracle (i + 1 + k)) = false := by
          rwa [show i + 1 + k = i + (k + 1) by omega]
        have hk : k < rest.length := Nat.lt_of_succ_lt_succ (by simpa using hlt)
        simp only [searchLoop, ho, hall, hfil]
        rw [ih rest (i + 1) _ _ hk hok2 hfail2]
        simp

/-- C1: if the first failing segment of a route is segment i (zero-indexed;
    the client returns a response whose offers are empty or all filtered
    out, every earlier segment succeeding), then exactly i+1 Segment Query
    Client calls are made, the route terminates with no result (counted as
    discarded, never completed), and `save_progress` records its signature
    as resolved — the remaining segments are never queried. -/
theorem early_termination_exact_calls (oracle : ℕ → SegResponse)
    (route : List Stop) (route_index i : ℕ)
    (hlt : i < route.length - 1)
    (hok : ∀ j, j < i → respValid (oracle j) = true)
    (hfail : respEmptyOk (oracle i) = true) :
    (worker_search_route oracle route route_index).effects.calls = i + 1 ∧
    (worker_search_route oracle route route_index).effects.result = none ∧
    (worker_search_route oracle route route_index).effects.sigSaved = true ∧
    (worker_search_route oracle route route_index).discardedInc = 1 ∧
    (worker_search_route oracle route route_index).completedInc = 0 ∧
    (worker_search_route oracle route route_index).failedInc = 0 := by
  have hpairs : (route.zip route.tail).length = route.length - 1 := by
    cases route with
    | nil => rfl
    | cons a t => simp [List.length_zip]
  have hloop : searchLoop oracle (route.zip route.tail) 0 [] 0 =
      (i + 1, none) :=
    searchLoop_fail oracle i (route.zip route.tail) 0 [] 0
      (by rw [hpairs]; exact hlt)
      (fun j hj => by simpa using hok j hj)
      (by simpa using respEmptyOk_not_valid _ hfail)
  simp [worker_search_route, search_route_flights, hloop]

/-- Witness for C1: on the six-stop fixture whose segment index 1 (the
    second of five segments) yields an empty response after a successful
    first segment, exactly two client calls are made and the route is
    discarded with its signature saved. -/
theorem early_termination_exact_calls_witness :
    (worker_search_route oracleOneThenEmpty route6 1).effects.calls = 2 ∧
    (worker_search_route oracleOneThenEmpty route6 1).effects.result = none ∧
    (worker_search_route oracleOneThenEmpty route6 1).effects.sigSaved = true ∧
    (worker_search_route oracleOneThenEmpty route6 1).discardedInc = 1 ∧
    (worker_search_route oracleOneThenEmpty route6 1).completedInc = 0 ∧
    (worker_search_route oracleOneThenEmpty route6 1).failedInc = 0 :=
  early_termination_exact_calls oracleOneThenEmpty route6 1 1
    (by decide) (by decide) (by decide)

/-- C2 counterexample: a route whose very first segment query raises is
    recorded exactly like one whose first segment returns an empty result —
    the two worker outcomes are equal, both counted in the discarded
    counter with the failed counter untouched — so an explicit client
    failure is NOT tagged or counted distinctly from Discarded. -/
theorem client_error_indistinguishable_from_discard :
    worker_search_route oracleErr route6 1 =
      worker_search_route oracleEmpty route6 1 ∧
    (worker_search_route oracleErr route6 1).discardedInc = 1 ∧
    (worker_search_route oracleErr route6 1).failedInc = 0 := by decide

/-- C2 (amended): an explicit Segment Query Client failure at segment i
    (every earlier segment succeeding) terminates the route exactly like an
    empty result does: i+1 calls, no result, signature recorded resolved,
    and one increment of the discarded counter (not of the failed/errored
    counter) — the code does not distinguish Errored from Discarded. -/
theorem client_error_discards_route (oracle : ℕ → SegResponse)
    (route : List Stop) (route_index i : ℕ)
    (hlt : i < route.length - 1)
    (hok : ∀ j, j < i → respValid (oracle j) = true)
    (herr : oracle i = SegResponse.error) :
    (worker_search_route oracle route route_index).effects.calls = i + 1 ∧
    (worker_search_route oracle route route_index).effects.result = none ∧
    (worker_search_route oracle route route_index).effects.sigSaved = true ∧
    (worker_search_route oracle route route_index).discardedInc = 1 ∧
    (worker_search_route oracle route route_index).completedInc = 0 ∧
    (worker_search_route oracle route route_index).failedInc = 0 := by
  have hpairs : (route.zip route.tail).length = route.length - 1 := by
    cases route with
    | nil => rfl
    | cons a t => simp [List.length_zip]
  have hloop : searchLoop oracle (route.zip route.tail) 0 [] 0 =
      (i + 1, none) :=
    searchLoop_fail oracle i (route.zip route.tail) 0 [] 0
      (by rw [hpairs]; exact hlt)
      (fun j hj => by simpa using hok j hj)
      (by simp [herr, respValid])
  simp [worker_search_route, search_route_flights, hloop]

/-- Witness for C2 (amended): the all-error oracle on the six-stop fixture
    makes one call and discards the route. -/
theorem client_error_discards_route_witness :
    (worker_search_route oracleErr route6 1).effects.calls = 1 ∧
    (worker_search_route oracleErr route6 1).effects.result = none ∧
    (worker_search_route oracleErr route6 1).effects.sigSaved = true ∧
    (worker_search_route oracleErr route6 1).discardedInc = 1 ∧
    (worker_search_route oracleErr route6 1).completedInc = 0 ∧
    (worker_search_route oracleErr route6 1).failedInc = 0 :=
  client_error_discards_route oracleErr route6 1 0
    (by decide) (by decide) (by decide)

/-- C6: every route processed by a worker reaches a terminal outcome that
    increments exactly one of the three aggregate counters (completed,
    discarded, failed) by exactly one — never two increments for the same
    route.  (The per-counter lock of the source serialises the increments;
    each worker performs the single increment shown here.) -/
theorem counters_exactly_once_per_route (oracle : ℕ → SegResponse)
    (route : List Stop) (route_index : ℕ) :
    ((worker_search_route oracle route route_index).completedInc = 1 ∧
     (worker_search_route oracle route route_index).discardedInc = 0 ∧
     (worker_search_route oracle route route_index).failedInc = 0) ∨
    ((worker_search_route oracle route route_index).completedInc = 0 ∧
     (worker_search_route oracle route route_index).discardedInc = 1 ∧
     (worker_search_route oracle route route_index).failedInc = 0) := by
  cases hp : (searchLoop oracle (route.zip route.tail) 0 [] 0).2 with
  | none =>
    right
    simp [worker_search_route, search_route_flights, hp]
  | some fc =>
    left
    simp [worker_search_route, search_route_flights, hp]

lemma contains_iff_mem {α : Type} [BEq α] [LawfulBEq α] (l : List α) (a : α) :
    l.contains a = true ↔ a ∈ l := by
  simp [List.contains]

lemma pyProduct_length {α : Type} :
    ∀ (ls : List (List α)) (c : List α), c ∈ pyProduct ls →
      c.length = ls.length := by
  intro ls
  induction ls with
  | nil =>
    intro c hc
    simp [pyProduct] at hc
    simp [hc]
  | cons l rest ih =>
    intro c hc
    simp only [pyProduct] at hc
    rw [List.mem_flatMap] at hc
    obtain ⟨x, _, hcx⟩ := hc
    rw [List.mem_map] at hcx
    obtain ⟨c2, hc2, rfl⟩ := hcx
    simp [ih c2 hc2]

lemma pyProduct_of_nil_mem {α : Type} :
    ∀ (ls : List (List α)), [] ∈ ls → pyProduct ls = [] := by
  intro ls
  induction ls with
  | nil => intro h; simp at h
  | cons l rest ih =>
    intro h
    rcases List.mem_cons.mp h with h | h
    · rw [← h]
      simp [pyProduct]
    · simp [pyProduct, ih h]

lemma zipWith_mkStop_continents :
    ∀ (as : List String) (bs : List CityInfo), as.length ≤ bs.length →
      (List.zipWith mkStop as bs).map Stop.continent = as := by
  intro as
  induction as with
  | nil => intro bs _; rfl
  | cons a as ih =>
    intro bs hlen
    cases bs with
    | nil => simp at hlen
    | cons b bs2 =>
      simp only [List.zipWith_cons_cons, List.map_cons]
      rw [ih bs2 (by simpa using hlen)]
      rfl

lemma mapping_keys (eligible : List (String × List String))
    (easyVisa : List String) (cityMap : List (String × List String)) :
    (get_continent_city_mapping eligible easyVisa cityMap).map Prod.fst =
      eligible.map Prod.fst := by
  simp [get_continent_city_mapping]

lemma buildRouteAux_continents (cc : List (String × List CityInfo))
    (attempt : ℕ) :
    ∀ (conts used : List String),
      ((buildRouteAux cc attempt conts used).map Stop.continent).Nodup ∧
      ∀ c ∈ (buildRouteAux cc attempt conts used).map Stop.continent,
        c ∈ conts ∧ c ∉ used := by
  intro conts
  induction conts with
  | nil =>
    intro used
    refine ⟨by simp [buildRouteAux], ?_⟩
    intro c hc
    simp [buildRouteAux] at hc
  | cons cont rest ih =>
    intro used
    by_cases hused : used.contains cont = true
    · have hb : buildRouteAux cc attempt (cont :: rest) used =
          buildRouteAux cc attempt rest used := by
        simp only [buildRouteAux]
        rw [if_pos hused]
      rw [hb]
      refine ⟨(ih used).1, ?_⟩
      intro c hc
      obtain ⟨h1, h2⟩ := (ih used).2 c hc
      exact ⟨List.mem_cons_of_mem _ h1, h2⟩
    · by_cases hcit : ((cc.lookup cont).getD []).isEmpty = true
      · have hb : buildRouteAux cc attempt (cont :: rest) used =
            buildRouteAux cc attempt rest used := by
          simp only [buildRouteAux]
          rw [if_neg hused, if_pos hcit]
        rw [hb]
        refine ⟨(ih used).1, ?_⟩
        intro c hc
        obtain ⟨h1, h2⟩ := (ih used).2 c hc
        exact ⟨List.mem_cons_of_mem _ h1, h2⟩
      · have hb : buildRouteAux cc attempt (cont :: rest) used =
            mkStop cont (selectCity attempt ((cc.lookup cont).getD [])) ::
              buildRouteAux cc attempt rest (used ++ [cont]) := by
          simp only [buildRouteAux]
          rw [if_neg hused, if_neg hcit]
        rw [hb]
        have ih2 := ih (used ++ [cont])
        have hnotused : cont ∉ used := by
          intro hm
          exact hused ((contains_iff_mem used cont).mpr hm)
        constructor
        · simp only [List.map_cons]
          rw [List.nodup_cons]
          refine ⟨?_, ih2.1⟩
          intro hc
          have := (ih2.2 _ hc).2
          exact this (List.mem_append_right used (List.mem_singleton.mpr rfl))
        · intro c hc
          simp only [List.map_cons, List.mem_cons] at hc
          rcases hc with rfl | hc
          · exact ⟨List.mem_cons_self _ _, hnotused⟩
          · obtain ⟨h1, h2⟩ := ih2.2 c hc
            refine ⟨List.mem_cons_of_mem _ h1, ?_⟩
            intro hcu
            exact h2 (List.mem_append_left _ hcu)

lemma dedupBySig_subset :
    ∀ (routes : List (List Stop))
      (seen : List (List (String × String × String))) (r : List Stop),
      r ∈ dedupBySig routes seen → r ∈ routes := by
  intro routes
  induction routes with
  | nil => intro seen r hr; simp [dedupBySig] at hr
  | cons a rest ih =>
    intro seen r hr
    by_cases hs : seen.contains (plannerSig a) = true
    · rw [show dedupBySig (a :: rest) seen = dedupBySig rest seen by
        simp only [dedupBySig]; rw [if_pos hs]] at hr
      exact List.mem_cons_of_mem a (ih seen r hr)
    · rw [show dedupBySig (a :: rest) seen =
          a :: dedupBySig rest (seen ++ [plannerSig a]) by
        simp only [dedupBySig]; rw [if_neg hs]] at hr
      rcases List.mem_cons.mp hr with rfl | hr2
      · exact List.mem_cons_self _ _
      · exact List.mem_cons_of_mem a (ih _ r hr2)

lemma required_continents_facts :
    REQUIRED_CONTINENTS.Nodup ∧ REQUIRED_CONTINENTS.length = 6 := by decide

lemma continents_perm_of_nodup_sub (cs : List String)
    (hnd : cs.Nodup) (hsub : ∀ c ∈ cs, c ∈ REQUIRED_CONTINENTS)
    (hlen : cs.length = 6) :
    ((cs : List String) : Multiset String) =
      (REQUIRED_CONTINENTS : Multiset String) := by
  have hsp : List.Subperm cs REQUIRED_CONTINENTS := hnd.subperm hsub
  have hperm : List.Perm cs REQUIRED_CONTINENTS :=
    hsp.perm_of_length_le (by rw [hlen, required_continents_facts.2])
  exact Multiset.coe_eq_coe.mpr hperm

lemma optimal_routes_continents (eligible : List (String × List String))
    (easyVisa : List String) (cityMap : List (String × List String))
    (shuffle : ℕ → List String → List String)
    (hshuf : ∀ n l, List.Perm (shuffle n l) l)
    (hkeys : List.Perm (eligible.map Prod.fst) REQUIRED_CONTINENTS)
    (routes : List (List Stop))
    (hgen : generate_optimal_routes eligible easyVisa cityMap shuffle =
      Except.ok routes)
    (r : List Stop) (hr : r ∈ routes) :
    ((r.map Stop.continent : List String) : Multiset String) =
      (REQUIRED_CONTINENTS : Multiset String) := by
  unfold generate_optimal_routes at hgen
  by_cases hlen : ((get_continent_city_mapping eligible easyVisa
      cityMap).map Prod.fst).length < NUM_CONTINENTS
  · rw [if_pos hlen] at hgen
    exact absurd hgen (by simp)
  · rw [if_neg hlen] at hgen
    have hroutes := Except.ok.inj hgen
    rw [← hroutes] at hr
    have hr2 := List.take_subset MAX_ROUTES _ hr
    have hr3 := (List.perm_insertionSort _ _).mem_iff.mp hr2
    have hr4 := dedupBySig_subset _ [] r hr3
    rw [List.mem_flatMap] at hr4
    obtain ⟨attempt, _, hra⟩ := hr4
    by_cases h6 : (buildRoute (get_continent_city_mapping eligible easyVisa
        cityMap) attempt (shuffle attempt ((get_continent_city_mapping
        eligible easyVisa cityMap).map Prod.fst))).length = NUM_CONTINENTS
    · rw [if_pos h6] at hra
      rcases List.mem_singleton.mp hra with rfl
      have hinv := buildRouteAux_continents
        (get_continent_city_mapping eligible easyVisa cityMap) attempt
        ((shuffle attempt ((get_continent_city_mapping eligible easyVisa
          cityMap).map Prod.fst)).take NUM_CONTINENTS) []
      refine continents_perm_of_nodup_sub _ hinv.1 ?_ ?_
      · intro c hc
        have h1 := (hinv.2 c hc).1
        have h2 := List.take_subset NUM_CONTINENTS _ h1
        have h3 := (hshuf attempt _).mem_iff.mp h2
        rw [mapping_keys] at h3
        exact hkeys.mem_iff.mp h3
      · rw [List.length_map]
        exact h6
    · rw [if_neg h6] at hra
      simp at hra

/-- C7: every route produced by the enumerator — by the full cross-product
    generator or by the sampling fallback (whose attempt-seeded shuffle is
    some permutation) — has a continent multiset equal to the required
    six-continent set, provided the reference data covers exactly the six
    required continents (as the shipped data does). -/
theorem routes_cover_all_continents (eligible : List (String × List String))
    (easyVisa : List String) (cityMap : List (String × List String))
    (shuffle : ℕ → List String → List String)
    (hshuf : ∀ n l, List.Perm (shuffle n l) l)
    (hkeys : List.Perm (eligible.map Prod.fst) REQUIRED_CONTINENTS)
    (routes : List (List Stop))
    (hgen : generate_all_possible_combinations eligible easyVisa cityMap
        shuffle = Except.ok routes ∨
      generate_optimal_routes eligible easyVisa cityMap shuffle =
        Except.ok routes)
    (r : List Stop) (hr : r ∈ routes) :
    ((r.map Stop.continent : List String) : Multiset String) =
      (REQUIRED_CONTINENTS : Multiset String) := by
  rcases hgen with hgen | hgen
  · unfold generate_all_possible_combinations at hgen
    by_cases hlen : ((get_continent_city_mapping eligible easyVisa
        cityMap).map Prod.fst).length < NUM_CONTINENTS
    · rw [if_pos hlen] at hgen
      exact absurd hgen (by simp)
    · rw [if_neg hlen] at hgen
      by_cases htot : 100000 <
          ((get_continent_city_mapping eligible easyVisa cityMap).map
            (fun p => p.2.length)).prod
      · rw [if_pos htot] at hgen
        exact optimal_routes_continents eligible easyVisa cityMap shuffle
          hshuf hkeys routes hgen r hr
      · rw [if_neg htot] at hgen
        have hroutes := Except.ok.inj hgen
        rw [← hroutes] at hr
        have hr2 := (List.perm_insertionSort _ _).mem_iff.mp hr
        rw [List.mem_map] at hr2
        obtain ⟨combination, hcomb, rfl⟩ := hr2
        have hclen := pyProduct_length _ combination hcomb
        have hmap := zipWith_mkStop_continents
          ((get_continent_city_mapping eligible easyVisa cityMap).map
            Prod.fst) combination
          (by rw [hclen]; simp)
        rw [hmap, mapping_keys]
        exact Multiset.coe_eq_coe.mpr hkeys
  · exact optimal_routes_continents eligible easyVisa cityMap shuffle
      hshuf hkeys routes hgen r hr

/-- Witness for C7: the tiny single-city-per-continent reference data
    generates exactly one route, whose continent multiset is the required
    set. -/
theorem routes_cover_all_continents_witness :
    ((tinyRoute.map Stop.continent : List String) : Multiset String) =
      (REQUIRED_CONTINENTS : Multiset String) :=
  routes_cover_all_continents tinyEligible EASY_VISA_COUNTRIES tinyCityMap
    idShuffle (fun _ _ => List.Perm.refl _) (List.Perm.refl _) [tinyRoute]
    (Or.inl rfl) tinyRoute (by decide)

/-- C5 counterexample: with reference data whose Oceania continent has zero
    eligible cities after the visa filter, route enumeration does NOT raise
    a configuration error — it returns an (empty) route list. -/
theorem empty_continent_no_error :
    (get_continent_city_mapping badEligible EASY_VISA_COUNTRIES
      COUNTRY_MAJOR_CITIES).lookup "Oceania" = some [] ∧
    generate_all_possible_combinations badEligible EASY_VISA_COUNTRIES
      COUNTRY_MAJOR_CITIES idShuffle = Except.ok [] := ⟨rfl, rfl⟩

/-- C5 (amended): the enumerator raises its configuration error only when a
    required continent is missing as a key of the continent→cities mapping;
    a continent that is present but has zero eligible cities after the visa
    filter does not raise — the cross-product is empty and an empty route
    list is returned. -/
theorem empty_continent_yields_empty_list
    (eligible : List (String × List String)) (easyVisa : List String)
    (cityMap : List (String × List String))
    (shuffle : ℕ → List String → List String)
    (hlen : ¬ ((get_continent_city_mapping eligible easyVisa cityMap).map
      Prod.fst).length < NUM_CONTINENTS)
    (hempty : ∃ p ∈ get_continent_city_mapping eligible easyVisa cityMap,
      p.2 = ([] : List CityInfo)) :
    generate_all_possible_combinations eligible easyVisa cityMap shuffle =
      Except.ok [] := by
  unfold generate_all_possible_combinations
  rw [if_neg hlen]
  obtain ⟨p, hp, hp2⟩ := hempty
  have hzero : ((get_continent_city_mapping eligible easyVisa cityMap).map
      (fun q => q.2.length)).prod = 0 := by
    apply List.prod_eq_zero
    rw [List.mem_map]
    exact ⟨p, hp, by rw [hp2]; rfl⟩
  have hnil : pyProduct ((get_continent_city_mapping eligible easyVisa
      cityMap).map Prod.snd) = [] := by
    apply pyProduct_of_nil_mem
    rw [List.mem_map]
    exact ⟨p, hp, by rw [← hp2]⟩
  simp only [hzero, hnil]
  simp [sortByScore]

/-- Witness for C5 (amended): the bad reference data returns the empty route
    list without an error. -/
theorem empty_continent_yields_empty_list_witness :
    generate_all_possible_combinations badEligible EASY_VISA_COUNTRIES
      COUNTRY_MAJOR_CITIES idShuffle = Except.ok [] :=
  empty_continent_yields_empty_list badEligible EASY_VISA_COUNTRIES
    COUNTRY_MAJOR_CITIES idShuffle (by decide)
    ⟨("Oceania", []), by decide, rfl⟩

/-- C8: after every append, the written-out results collection is ordered
    nondecreasingly by the total-cost key, whatever the prior file contents
    were; and it holds exactly the prior records plus the appended one. -/
theorem results_file_sorted_after_append (existing_results : List ItinResult)
    (result : ItinResult) :
    List.Sorted (fun a b => resultKey a ≤ resultKey b)
      (save_result_to_file existing_results result) ∧
    List.Perm (save_result_to_file existing_results result)
      (existing_results ++ [result]) := by
  constructor
  · haveI : IsTotal ItinResult (fun a b => resultKey a ≤ resultKey b) :=
      ⟨fun a b => le_total _ _⟩
    haveI : IsTrans ItinResult (fun a b => resultKey a ≤ resultKey b) :=
      ⟨fun a b c hab hbc => le_trans hab hbc⟩
    exact List.sorted_insertionSort _ _
  · exact List.perm_insertionSort _ _

lemma mem_addSig_self (sigs : List (List (String × String × String)))
    (sig : List (String × String × String)) : sig ∈ addSig sigs sig := by
  unfold addSig
  by_cases h : sigs.contains sig = true
  · rw [if_pos h]
    exact (contains_iff_mem _ _).mp h
  · rw [if_neg h]
    exact List.mem_append_right _ (List.mem_singleton.mpr rfl)

lemma mem_addSig_of_mem (sigs : List (List (String × String × String)))
    (sig s : List (String × String × String)) (h : s ∈ sigs) :
    s ∈ addSig sigs sig := by
  unfold addSig
  by_cases h2 : sigs.contains sig = true
  · rw [if_pos h2]; exact h
  · rw [if_neg h2]; exact List.mem_append_left _ h

lemma sigSaved_always (oracle : ℕ → SegResponse) (route : List Stop)
    (route_index : ℕ) :
    (search_route_flights oracle route route_index).sigSaved = true := by
  simp only [search_route_flights]
  split <;> rfl

lemma processRoute_mem (oracle : List Stop → ℕ → SegResponse) (st : RunState)
    (p : List Stop × ℕ) (s : List (String × String × String))
    (h : s ∈ st.completed_routes) :
    s ∈ (processRoute oracle st p).completed_routes := by
  simp only [processRoute]
  split
  · exact mem_addSig_of_mem _ _ _ h
  · exact h

lemma processRoute_adds (oracle : List Stop → ℕ → SegResponse) (st : RunState)
    (p : List Stop × ℕ) :
    route_to_signature p.1 ∈ (processRoute oracle st p).completed_routes := by
  simp only [processRoute, worker_search_route]
  rw [if_pos (sigSaved_always (oracle p.1) p.1 p.2)]
  exact mem_addSig_self _ _

lemma runPending_mem (oracle : List Stop → ℕ → SegResponse) :
    ∀ (pending : List (List Stop × ℕ)) (st : RunState)
      (s : List (String × String × String)), s ∈ st.completed_routes →
      s ∈ (runPending oracle st pending).completed_routes := by
  intro pending
  induction pending with
  | nil => intro st s h; exact h
  | cons p rest ih =>
    intro st s h
    exact ih _ s (processRoute_mem oracle st p s h)

lemma runPending_adds (oracle : List Stop → ℕ → SegResponse) :
    ∀ (pending : List (List Stop × ℕ)) (st : RunState) (r : List Stop)
      (i : ℕ), (r, i) ∈ pending →
      route_to_signature r ∈ (runPending oracle st pending).completed_routes := by
  intro pending
  induction pending with
  | nil => intro st r i h; simp at h
  | cons p rest ih =>
    intro st r i h
    rcases List.mem_cons.mp h with h | h
    · cases h
      exact runPending_mem oracle rest _ _ (processRoute_adds oracle st (r, i))
    · exact ih _ r i h

lemma pendingOf_mem (st : RunState) :
    ∀ (rs : List (List Stop)) (i0 : ℕ) (r : List Stop), r ∈ rs →
      is_route_completed st r = false →
      ∃ i, (r, i) ∈ pendingOf st rs i0 := by
  intro rs
  induction rs with
  | nil => intro i0 r h; intro _; simp at h
  | cons a rest ih =>
    intro i0 r hr hnc
    rcases List.mem_cons.mp hr with rfl | hr2
    · rw [show pendingOf st (r :: rest) i0 =
          (r, i0 + 1) :: pendingOf st rest (i0 + 1) by
        simp only [pendingOf]; rw [if_neg (by simp [hnc])]]
      exact ⟨i0 + 1, List.mem_cons_self _ _⟩
    · by_cases hca : is_route_completed st a = true
      · rw [show pendingOf st (a :: rest) i0 = pendingOf st rest (i0 + 1) by
          simp only [pendingOf]; rw [if_pos hca]]
        exact ih (i0 + 1) r hr2 hnc
      · rw [show pendingOf st (a :: rest) i0 =
            (a, i0 + 1) :: pendingOf st rest (i0 + 1) by
          simp only [pendingOf]; rw [if_neg hca]]
        obtain ⟨i, hi⟩ := ih (i0 + 1) r hr2 hnc
        exact ⟨i, List.mem_cons_of_mem _ hi⟩

lemma pendingOf_eq_nil (st : RunState) :
    ∀ (rs : List (List Stop)) (i0 : ℕ),
      (∀ r ∈ rs, is_route_completed st r = true) →
      pendingOf st rs i0 = [] := by
  intro rs
  induction rs with
  | nil => intro i0 _; rfl
  | cons a rest ih =>
    intro i0 hall
    simp only [pendingOf]
    rw [if_pos (hall a (List.mem_cons_self _ _))]
    exact ih (i0 + 1) (fun r hr => hall r (List.mem_cons_of_mem _ hr))

/-- C9: running the full search cycle a second time against the state a
    first run left behind (same route list, same truncation, no data
    change) is a no-op: every truncated route's signature is already
    resolved, so no route is processed, no Segment Query Client call is
    made (the call counter is unchanged), and the results file — contents
    and sort order — is left exactly as it was (timestamps are not part of
    the model). -/
theorem second_run_is_noop (oracle : List Stop → ℕ → SegResponse)
    (st : RunState) (routes : List (List Stop))
    (max_routes_to_search : ℕ) :
    search_all_routes_parallel oracle
      (search_all_routes_parallel oracle st routes max_routes_to_search)
      routes max_routes_to_search =
    search_all_routes_parallel oracle st routes max_routes_to_search := by
  set st1 := search_all_routes_parallel oracle st routes max_routes_to_search
    with hst1
  have hall : ∀ r ∈ routes.take max_routes_to_search,
      is_route_completed st1 r = true := by
    intro r hr
    have hsig : route_to_signature r ∈ st1.completed_routes := by
      by_cases hc : is_route_completed st r = true
      · have hmem := (contains_iff_mem _ _).mp
          (show st.completed_routes.contains (route_to_signature r) = true
            from hc)
        rw [hst1]
        exact runPending_mem oracle _ st _ hmem
      · have hnc : is_route_completed st r = false := by
          cases h2 : is_route_completed st r with
          | false => rfl
          | true => exact absurd h2 hc
        obtain ⟨i, hi⟩ := pendingOf_mem st _ 0 r hr hnc
        rw [hst1]
        exact runPending_adds oracle _ st r i hi
    show st1.completed_routes.contains (route_to_signature r) = true
    exact (contains_iff_mem _ _).mpr hsig
  show runPending oracle st1
    (pendingOf st1 (routes.take max_routes_to_search) 0) = st1
  rw [pendingOf_eq_nil st1 _ 0 hall]
  rfl

end FlightSearch
